import Mathlib

/-!
# CAS_Exporter: verification of the extraction-and-exposition pipeline

Shallow embedding of the Go sources of `isard-vdi/CAS_Exporter`:

* `casadm/casadm.go` — the Data Source Adapter (`ListCaches`, `GetCacheStats`);
* `casexporter` package — the Metric Model gauges and the Scheduler loop
  (`CasExporter.Start`);
* `transport/http` package — the Snapshot Server (`ExporterServer.Serve`);
* the legacy `cas_exporter.go` — header mapping (`initializeHeaders`,
  `mapHeaders`) and its `main`.

Machine integers are modelled as `Nat`/`Int` (no arithmetic overflow occurs in
the modelled code paths: values are only decoded, compared and copied), Go
`float64` gauge values as `ℚ` (the code only stores decoded numerals, never
computes with them), fallible Go functions as `Except`/`Option`.
-/

/-! ## Data model (`casadm/casadm.go`) -/

/-- Go struct `casadm.Cache`: one row of `casadm --list-caches` output (an Entity).
Go field `Type` is rendered as `ctype` (`Type` is not a usable field name). -/
structure Cache where
  ctype : String := ""
  ID : Nat := 0
  Disk : String := ""
  Status : String := ""
  WritePolicy : String := ""
  Device : String := ""
deriving DecidableEq, Repr

/-- Go struct `casadm.CacheStats`: one decoded row of `casadm --stats` output (a
Reading).  Go `int` fields become `Int`, `float64` fields become `ℚ`,
`uint16` becomes `Nat`.  Defaults are the Go zero values (the CSV decoder
leaves unmatched fields at their zero value). -/
structure CacheStats where
  ID : Nat := 0
  Size4K : ℚ := 0
  SizeGB : ℚ := 0
  Device : String := ""
  ExportedObject : String := ""
  CoreDevices : Int := 0
  InactiveCoreDevices : Int := 0
  WritePolicy : String := ""
  CleaningPolicy : String := ""
  PromotionPolicy : String := ""
  CacheLineSizeKB : ℚ := 0
  MetadataMemoryFootprintMB : ℚ := 0
  DirtyForS : Int := 0
  DirtyFor : String := ""
  Status : String := ""
  Occupancy4K : Int := 0
  OccupancyPercent : ℚ := 0
  Free4K : Int := 0
  FreePercent : ℚ := 0
  Clean4K : Int := 0
  CleanPercent : ℚ := 0
  Dirty4K : Int := 0
  DirtyPercent : ℚ := 0
  ReadHitsRequests : Int := 0
  ReadHitsPercent : ℚ := 0
  ReadPartialMissesRequests : Int := 0
  ReadPartialMissesPercent : ℚ := 0
  ReadFullMissesRequests : Int := 0
  ReadFullMissesPercent : ℚ := 0
  ReadTotalRequests : Int := 0
  ReadTotalPercent : ℚ := 0
  WriteHitsRequests : Int := 0
  WriteHitsPercent : ℚ := 0
  WritePartialMissesRequests : Int := 0
  WritePartialMissesPercent : ℚ := 0
  WriteFullMissesRequests : Int := 0
  WriteFullMissesPercent : ℚ := 0
  WriteTotalRequests : Int := 0
  WriteTotalPercent : ℚ := 0
  PassThroughReadsRequests : Int := 0
  PassThroughReadsPercent : ℚ := 0
  PassThroughWritesRequests : Int := 0
  PassThroughWritesPercent : ℚ := 0
  ServicedRequestsRequests : Int := 0
  ServicedRequestsPercent : ℚ := 0
  TotalRequestsRequests : Int := 0
  TotalRequestsPercent : ℚ := 0
  ReadsFromCores4K : Int := 0
  ReadsFromCoresPercent : ℚ := 0
  WritesFromCores4K : Int := 0
  WritesFromCoresPercent : ℚ := 0
  TotalToFromCores4K : Int := 0
  TotalToFromCoresPercent : ℚ := 0
  ReadsFromCache4K : Int := 0
  ReadsFromCachePercent : ℚ := 0
  WritesToCachce4K : Int := 0
  WritesToCachcePercent : ℚ := 0
  TotalToFromCache4K : Int := 0
  TotalToFromCachePercent : ℚ := 0
  ReadsFromExportedObjects4K : Int := 0
  ReadsFromExportedObjectsPercent : ℚ := 0
  WritesToExportedObjects4K : Int := 0
  WritesToExportedObjectsPercent : ℚ := 0
  TotalToFromExportedObjects4K : Int := 0
  TotalToFromExportedObjectsPercent : ℚ := 0
  CacheReadErrorsRequests : Int := 0
  CacheReadErrorsPercent : ℚ := 0
  CacheWriteErrorsRequests : Int := 0
  CacheWriteErrorsPercent : ℚ := 0
  CacheTotalErrorsRequests : Int := 0
  CacheTotalErrorsPercent : ℚ := 0
  CoreReadErrorsRequests : Int := 0
  CoreReadErrorsPercent : ℚ := 0
  CoreWriteErrorsRequests : Int := 0
  CoreWriteErrorsPercent : ℚ := 0
  CoreTotalErrorsRequests : Int := 0
  CoreTotalErrorsPercent : ℚ := 0
  TotalErrorsRequests : Int := 0
  TotalErrorsPercent : ℚ := 0

/-! ## Data Source Adapter (`casadm/casadm.go`)

`exec.CommandContext(...).CombinedOutput()` is the external collaborator; its
outcome is reified as `ExecResult`: `exitErr = some e` models a non-nil error
(process exited non-zero / could not run), `output` is the captured combined
output `b` (returned in both the success and the failure case).  The gocsv
decoder is likewise a parameter `decode` of the adapter functions. -/

/-- Outcome of one external `casadm` invocation. -/
structure ExecResult where
  exitErr : Option String
  output : String
deriving DecidableEq, Repr

/-- Function `casadm.ListCaches` after the external invocation: wraps an exec failure
with the raw output, a decode failure without it, and otherwise returns all
decoded rows (possibly none). -/
def ListCachesGo (r : ExecResult) (decode : String → Except String (List Cache)) :
    Except String (List Cache) :=
  match r.exitErr with
  | some e => .error ("list caches: " ++ e ++ ": '" ++ r.output ++ "'")
  | none =>
    match decode r.output with
    | .error e => .error ("unmarshal list caches csv: " ++ e)
    | .ok caches => .ok caches

/-- Function `casadm.GetCacheStats` after the external invocation: wraps an exec
failure with the raw output, a decode failure without it, rejects an empty
row list with `"missing cache stats"`, and otherwise returns `stats[0]`,
discarding any further rows. -/
def GetCacheStatsGo (r : ExecResult)
    (decode : String → Except String (List CacheStats)) :
    Except String CacheStats :=
  match r.exitErr with
  | some e => .error ("list caches: " ++ e ++ ": '" ++ r.output ++ "'")
  | none =>
    match decode r.output with
    | .error e => .error ("unmarshal cache stats csv: " ++ e)
    | .ok [] => .error "missing cache stats"
    | .ok (s :: _) => .ok s

/-! ## Metric Model (`casexporter`, `part_000`)

The four `prometheus.GaugeVec`s of `CasExporter`.  A gauge vector is a map
from its label tuple to the current gauge value; `With(labels).Set(v)` is a
pointwise overwrite.  `ocfStatDuration` / `ocfStatSuccess` have the empty
label set, hence are single optional scalars. -/

/-- The label tuple `{"device", "id", "category", "subcategory"}` of
`ocf_count` / `ocf_percentage`. -/
structure Labels where
  device : String
  id : String
  category : String
  subcategory : String
deriving DecidableEq, Repr

/-- State of the `CasExporter` gauges.  `none` = the labelled child gauge has
not been created yet (Metric Points are created lazily on first `Set`). -/
structure CasExporterState where
  ocfStatCount : Labels → Option ℚ
  ocfStatPercentage : Labels → Option ℚ
  ocfStatDuration : Option ℚ
  ocfStatSuccess : Option ℚ

/-- The freshly constructed exporter (`NewCasExporter`): no child gauges. -/
def CasExporterState.init : CasExporterState :=
  ⟨fun _ => none, fun _ => none, none, none⟩

/-- Embedding of `GaugeVec.With(labels).Set(v)`: pointwise overwrite of one child gauge. -/
def setGauge (g : Labels → Option ℚ) (k : Labels) (v : ℚ) : Labels → Option ℚ :=
  fun k' => if k' = k then some v else g k'

/-- The 31 `ocfStatCount.With{...}.Set(...)` calls of `CasExporter.Start`
(`part_000` lines 115–312), in source order, as
`(category, subcategory, value)` triples.  Note `rd_pt` / `wr_pt` are set
from `stats.ReadTotalPercent` / `stats.WriteTotalPercent` (lines 189–200),
exactly as in the source. -/
def countUpdates (stats : CacheStats) : List (String × String × ℚ) :=
  [ ("usage", "occupancy", (stats.Occupancy4K : ℚ)),
    ("usage", "free", (stats.Free4K : ℚ)),
    ("usage", "clean", (stats.Clean4K : ℚ)),
    ("usage", "dirty", (stats.Dirty4K : ℚ)),
    ("requests", "rd_hits", (stats.ReadHitsRequests : ℚ)),
    ("requests", "rd_partial_misses", (stats.ReadPartialMissesRequests : ℚ)),
    ("requests", "rd_full_misses", (stats.ReadFullMissesRequests : ℚ)),
    ("requests", "rd_total", (stats.ReadTotalRequests : ℚ)),
    ("requests", "wr_hits", (stats.WriteHitsRequests : ℚ)),
    ("requests", "wr_partial_misses", (stats.WritePartialMissesRequests : ℚ)),
    ("requests", "wr_full_misses", (stats.WriteFullMissesRequests : ℚ)),
    ("requests", "wr_total", (stats.WriteTotalRequests : ℚ)),
    ("requests", "rd_pt", stats.ReadTotalPercent),
    ("requests", "wr_pt", stats.WriteTotalPercent),
    ("requests", "serviced", (stats.ServicedRequestsRequests : ℚ)),
    ("requests", "total", (stats.TotalRequestsRequests : ℚ)),
    ("blocks", "core_volume_rd", (stats.ReadsFromCores4K : ℚ)),
    ("blocks", "core_volume_wr", (stats.WritesFromCores4K : ℚ)),
    ("blocks", "core_volume_total", (stats.TotalToFromCores4K : ℚ)),
    ("blocks", "cache_volume_rd", (stats.ReadsFromCache4K : ℚ)),
    ("blocks", "cache_volume_wr", (stats.WritesToCachce4K : ℚ)),
    ("blocks", "cache_volume_total", (stats.TotalToFromCache4K : ℚ)),
    ("blocks", "volume_rd", (stats.ReadsFromExportedObjects4K : ℚ)),
    ("blocks", "volume_wr", (stats.WritesToExportedObjects4K : ℚ)),
    ("blocks", "volume_total", (stats.TotalToFromExportedObjects4K : ℚ)),
    ("errors", "cache_volume_rd", (stats.CacheReadErrorsRequests : ℚ)),
    ("errors", "cache_volume_wr", (stats.CacheWriteErrorsRequests : ℚ)),
    ("errors", "cache_volume_total", (stats.CacheTotalErrorsRequests : ℚ)),
    ("errors", "core_volume_rd", (stats.CoreReadErrorsRequests : ℚ)),
    ("errors", "core_volume_wr", (stats.CoreWriteErrorsRequests : ℚ)),
    ("errors", "core_volume_total", (stats.CoreTotalErrorsRequests : ℚ)),
    ("errors", "total", (stats.TotalErrorsRequests : ℚ)) ]

/-- The 31 `ocfStatPercentage.With{...}.Set(...)` calls of
`CasExporter.Start` (`part_000` lines 319–516), in source order.  Note
`rd_pt` / `wr_pt` are again set from `stats.ReadTotalPercent` /
`stats.WriteTotalPercent` (lines 393–404), exactly as in the source. -/
def pctUpdates (stats : CacheStats) : List (String × String × ℚ) :=
  [ ("usage", "occupancy", stats.OccupancyPercent),
    ("usage", "free", stats.FreePercent),
    ("usage", "clean", stats.CleanPercent),
    ("usage", "dirty", stats.DirtyPercent),
    ("requests", "rd_hits", stats.ReadHitsPercent),
    ("requests", "rd_partial_misses", stats.ReadPartialMissesPercent),
    ("requests", "rd_full_misses", stats.ReadFullMissesPercent),
    ("requests", "rd_total", stats.ReadTotalPercent),
    ("requests", "wr_hits", stats.WriteHitsPercent),
    ("requests", "wr_partial_misses", stats.WritePartialMissesPercent),
    ("requests", "wr_full_misses", stats.WriteFullMissesPercent),
    ("requests", "wr_total", stats.WriteTotalPercent),
    ("requests", "rd_pt", stats.ReadTotalPercent),
    ("requests", "wr_pt", stats.WriteTotalPercent),
    ("requests", "serviced", stats.ServicedRequestsPercent),
    ("requests", "total", stats.TotalRequestsPercent),
    ("blocks", "core_volume_rd", stats.ReadsFromCoresPercent),
    ("blocks", "core_volume_wr", stats.WritesFromCoresPercent),
    ("blocks", "core_volume_total", stats.TotalToFromCoresPercent),
    ("blocks", "cache_volume_rd", stats.ReadsFromCachePercent),
    ("blocks", "cache_volume_wr", stats.WritesToCachcePercent),
    ("blocks", "cache_volume_total", stats.TotalToFromCachePercent),
    ("blocks", "volume_rd", stats.ReadsFromExportedObjectsPercent),
    ("blocks", "volume_wr", stats.WritesToExportedObjectsPercent),
    ("blocks", "volume_total", stats.TotalToFromExportedObjectsPercent),
    ("errors", "cache_volume_rd", stats.CacheReadErrorsPercent),
    ("errors", "cache_volume_wr", stats.CacheWriteErrorsPercent),
    ("errors", "cache_volume_total", stats.CacheTotalErrorsPercent),
    ("errors", "core_volume_rd", stats.CoreReadErrorsPercent),
    ("errors", "core_volume_wr", stats.CoreWriteErrorsPercent),
    ("errors", "core_volume_total", stats.CoreTotalErrorsPercent),
    ("errors", "total", stats.TotalErrorsPercent) ]

/-- One `ocfStatCount` write for cache `c`. -/
def applyCount (c : Cache) (s : CasExporterState) (p : String × String × ℚ) :
    CasExporterState :=
  { s with ocfStatCount :=
      setGauge s.ocfStatCount ⟨c.Device, toString c.ID, p.1, p.2.1⟩ p.2.2 }

/-- One `ocfStatPercentage` write for cache `c`. -/
def applyPct (c : Cache) (s : CasExporterState) (p : String × String × ℚ) :
    CasExporterState :=
  { s with ocfStatPercentage :=
      setGauge s.ocfStatPercentage ⟨c.Device, toString c.ID, p.1, p.2.1⟩ p.2.2 }

/-- All 62 gauge writes performed for one successfully sampled cache
(`part_000` lines 110–516): first the count writes, then the percentage
writes, in source order. -/
def observeCacheStats (c : Cache) (stats : CacheStats) (s : CasExporterState) :
    CasExporterState :=
  (pctUpdates stats).foldl (applyPct c) ((countUpdates stats).foldl (applyCount c) s)

/-! ## Extraction Scheduler: one cycle (`CasExporter.Start`, `part_000`)

The body of the `default:` branch of the loop.  The external world is
reified as the enumerate outcome (`listResult`) and a sampling oracle
(`sample`); the measured wall-clock duration is the parameter `duration`.
The returned trace lists the cache IDs passed to `casadm.GetCacheStats`, in
call order. -/

/-- The per-entity loop (`part_000` lines 94–518): skip sentinel devices,
sample the rest; on a sample error set `success = 0` and continue. -/
def runEntities (sample : Nat → Except String CacheStats) :
    List Cache → Bool → CasExporterState → Bool × CasExporterState × List Nat
  | [], ok, s => (ok, s, [])
  | c :: rest, ok, s =>
    if c.Device = "-" then
      runEntities sample rest ok s
    else
      match sample c.ID with
      | .error _ =>
        let r := runEntities sample rest false s
        (r.1, r.2.1, c.ID :: r.2.2)
      | .ok stats =>
        let r := runEntities sample rest ok (observeCacheStats c stats s)
        (r.1, r.2.1, c.ID :: r.2.2)

/-- End of the cycle (`part_000` lines 521–524): record duration and the
success flag (`1` / `0`). -/
def finishCycle (s : CasExporterState) (duration : ℚ) (ok : Bool) :
    CasExporterState :=
  { s with ocfStatDuration := some duration,
           ocfStatSuccess := some (if ok then 1 else 0) }

/-- One full extraction cycle (`part_000` lines 82–529): `success` starts at
`1`; if enumerate failed it becomes `0` and sampling is skipped; otherwise
the per-entity loop runs; duration and success are always recorded. -/
def runCycle (listResult : Except String (List Cache))
    (sample : Nat → Except String CacheStats) (duration : ℚ)
    (s : CasExporterState) : CasExporterState × List Nat :=
  match listResult with
  | .error _ => (finishCycle s duration false, [])
  | .ok caches =>
    let r := runEntities sample caches true s
    (finishCycle r.2.1 duration r.1, r.2.2)

/-! ## Legacy header mapping (`cas_exporter.go`)

`initializeHeaders` fills a Go map from internal keyword to the external
column-header text; `mapHeaders` iterates over that map's keys — in Go's
*unspecified* map-iteration order, which is therefore a parameter here — and
looks each header text up in the comma-split header line with
`strings.Contains`.  Faithful detail: the `found` flag is declared once
before the key loop and never reset, and `headerMap[header_keyword] = i`
stores under the *external* keyword. -/

/-- Embedding of `strings.Contains(hay, needle)`. -/
def goContains (hay needle : String) : Bool :=
  decide (needle.data <:+: hay.data)

/-- Embedding of `strings.Split(s, ",")` for a one-character separator: cut at every
comma, keeping empty fields.  (Executable structural recursion standing in
for `String.splitOn`, which does not reduce in the kernel.) -/
def goSplitCommaAux (cur : List Char) : List Char → List String
  | [] => [String.mk cur.reverse]
  | ch :: rest =>
    if ch = ',' then String.mk cur.reverse :: goSplitCommaAux [] rest
    else goSplitCommaAux (ch :: cur) rest

/-- Embedding of `strings.Split(s, ",")`. -/
def goSplitComma (s : String) : List String :=
  goSplitCommaAux [] s.data

/-- The 62 `headers[...] = "..."` assignments of `initializeHeaders`
(`cas_exporter.go` lines 206–269), in source order, as
(internal keyword, external header text) pairs. -/
def headersInit : List (String × String) :=
  [ ("occupancy_blk", "Occupancy [4KiB blocks]"),
    ("occupancy_pct", "Occupancy [%]"),
    ("free_blk", "Free [4KiB blocks]"),
    ("free_pct", "Free [%]"),
    ("clean_blk", "Clean [4KiB blocks]"),
    ("clean_pct", "Clean [%]"),
    ("diry_blk", "Dirty [4KiB blocks]"),
    ("dirty_pct", "Dirty [%]"),
    ("rd_hit_blk", "Read hits [Requests]"),
    ("rd_hit_pct", "Read hits [%]"),
    ("rd_part_misses_blk", "Read partial misses [Requests]"),
    ("rd_part_misses_pct", "Read partial misses [%]"),
    ("rd_full_misses_blk", "Read full misses [Requests]"),
    ("rd_full_misses_pct", "Read full misses [%]"),
    ("rd_total_blk", "Read total [Requests]"),
    ("rd_total_pct", "Read total [%]"),
    ("wt_hit_blk", "Write hits [Requests]"),
    ("wt_hit_pct", "Write hits [%]"),
    ("wt_part_misses_blk", "Write partial misses [Requests]"),
    ("wt_part_misses_pct", "Write partial misses [%]"),
    ("wt_full_misses_blk", "Write full misses [Requests]"),
    ("wt_full_misses_pct", "Write full misses [%]"),
    ("wt_total_blk", "Write total [Requests]"),
    ("wt_total_pct", "Write total [%]"),
    ("passthru_rd_blk", "Pass-Through reads [Requests]"),
    ("passthru_rd_pct", "Pass-Through reads [%]"),
    ("passthru_wt_blk", "Pass-Through writes [Requests]"),
    ("passthru_wt_pct", "Pass-Through writes [%]"),
    ("serviced_blk", "Serviced requests [Requests]"),
    ("serviced_pct", "Serviced requests [%]"),
    ("total_request_blk", "Total requests [Requests]"),
    ("total_request_pct", "Total requests [%]"),
    ("rd_core_blk", "Reads from core(s) [4KiB blocks]"),
    ("rd_core_pct", "Reads from core(s) [%]"),
    ("wt_core_blk", "Writes to core(s) [4KiB blocks]"),
    ("wt_core_pct", "Writes to core(s) [%]"),
    ("total_core_blk", "Total to/from core(s) [4KiB blocks]"),
    ("total_core_pct", "Total to/from core(s) [%]"),
    ("rd_cache_blk", "Reads from cache [4KiB blocks]"),
    ("rd_cache_pct", "Reads from cache [%]"),
    ("wt_cache_blk", "Writes to cache [4KiB blocks]"),
    ("wt_cache_pct", "Writes to cache [%]"),
    ("total_cache_blk", "Total to/from cache [4KiB blocks]"),
    ("total_cache_pct", "Total to/from cache [%]"),
    ("rd_cas_blk", "Reads from exported object(s) [4KiB blocks]"),
    ("rd_cas_pct", "Reads from exported object(s) [%]"),
    ("wt_cas_blk", "Writes to exported object(s) [4KiB blocks]"),
    ("wt_cas_pct", "Writes to exported object(s) [%]"),
    ("total_cas_blk", "Total to/from exported object(s) [4KiB blocks]"),
    ("total_cas_pct", "Total to/from exported object(s) [%]"),
    ("cache_rd_error_blk", "Cache read errors [Requests]"),
    ("cache_rd_error_pct", "Cache read errors [%]"),
    ("cache_wt_error_blk", "Cache write errors [Requests]"),
    ("cache_wt_error_pct", "Cache write errors [%]"),
    ("cache_total_error_blk", "Cache total errors [Requests]"),
    ("cache_total_error_pct", "Cache total errors [%]"),
    ("core_rd_error_blk", "Core read errors [Requests]"),
    ("core_rd_error_pct", "Core read errors [%]"),
    ("core_wt_error_blk", "Core write errors [Requests]"),
    ("core_wt_error_pct", "Core write errors [%]"),
    ("core_total_error_blk", "Core total errors [Requests]"),
    ("core_total_error_pct", "Core total errors [%]"),
    ("total_error_blk", "Total errors [Requests]"),
    ("total_error_pct", "Total errors [%]") ]

/-- The key loop of `mapHeaders` (`cas_exporter.go` lines 296–313).
`order` is the remaining header keywords (`headers[key]` values) in map
iteration order; `found` is the loop-carried flag that the source never
resets; the accumulated `headerMap` entries are `(keyword, position)`.
`none` models the `return 1` taken when a keyword is missing while `found`
is still `false`. -/
def mapHeadersLoop (csvHeaders : List String) :
    List String → Bool → List (String × Nat) → Option (List (String × Nat))
  | [], _, hm => some hm
  | kw :: rest, found, hm =>
    match csvHeaders.findIdx? (fun h => goContains h kw) with
    | some i => mapHeadersLoop csvHeaders rest true (hm ++ [(kw, i)])
    | none => if found then mapHeadersLoop csvHeaders rest found hm else none

/-- Function `mapHeaders(headerline)` (`cas_exporter.go` lines 284–316), with the
map-iteration order of the keywords made explicit.  `some hm` models
`return 0` with `headerMap = hm`; `none` models `return 1`. -/
def mapHeadersGo (order : List String) (headerline : String) :
    Option (List (String × Nat)) :=
  mapHeadersLoop (goSplitComma headerline) order false []

/-- How the legacy `main` can end its startup sequence. -/
inductive StartupOutcome where
  | refuseToRun (code : Nat)
  | serveMetrics
deriving DecidableEq, Repr

/-- Legacy `main` after `rc := mapHeaders(headerline)` (`cas_exporter.go`
lines 663–672): when `rc != 0` it only logs `"ERROR : Failed to map
header"`, then unconditionally calls `recordMetrics_19_9()` and serves
`/metrics` — there is no exit path on a mapping failure. -/
def mainAfterMapHeaders (_mapResult : Option (List (String × Nat))) :
    StartupOutcome :=
  StartupOutcome.serveMetrics

/-! ## Snapshot Server (`transport/http`, `part_001`) -/

/-- What the listener goroutine of `ExporterServer.Serve` does to the
process after `ListenAndServe` returns. -/
inductive ExitAction where
  | keepRunning
  | exitCode (code : Nat)
deriving DecidableEq, Repr

/-- The goroutine body of `ExporterServer.Serve` (`part_001` lines 47–58):
`if err := srv.ListenAndServe(); err != nil { slog.Error(...); os.Exit(1) }`.
Any non-nil error — with no carve-out for `http.ErrServerClosed` — leads to
`os.Exit(1)`. -/
def serveListenGoroutine (listenErr : Option String) : ExitAction :=
  match listenErr with
  | some _ => ExitAction.exitCode 1
  | none => ExitAction.keepRunning

/-- Value of `http.ErrServerClosed`, the non-nil error value that `ListenAndServe`
returns once `srv.Shutdown` has been called (documented `net/http`
behaviour; `ExporterServer.Serve` calls `srv.Shutdown` on `ctx.Done()`,
`part_001` lines 60–64). -/
def errServerClosed : String := "http: Server closed"

/-- The `ListenAndServe` result observed by the goroutine during a graceful
(cancellation-triggered) teardown: the non-nil `errServerClosed`. -/
def gracefulShutdownListenResult : Option String := some errServerClosed

/-- Constant `MaxRequestsInFlight: 40` from the `promhttp.HandlerOpts` of
`ExporterServer.Serve` (`part_001` line 34). -/
def maxRequestsInFlight : Nat := 40

/-- Modelled from the spec: the in-flight render limiter itself lives in the
external `promhttp` library (only its ceiling is configured in this
repository), so its semantics are taken from the spec's words — "Bounds the
number of concurrently in-flight render operations to a fixed ceiling;
requests beyond the ceiling are rejected rather than queued indefinitely."
An event is a request arrival or the completion of an in-flight render. -/
inductive RenderEvent where
  | arrive
  | complete
deriving DecidableEq, Repr

/-- Modelled from the spec: one limiter transition.  Returns the new
in-flight count and whether an arriving request was accepted. -/
def limiterStep (limit inFlight : Nat) : RenderEvent → Nat × Bool
  | .arrive => if inFlight < limit then (inFlight + 1, true) else (inFlight, false)
  | .complete => (inFlight - 1, true)

/-- Modelled from the spec: the in-flight count after a sequence of render
events, starting from an idle server. -/
def limiterRun (limit : Nat) (events : List RenderEvent) : Nat :=
  events.foldl (fun n e => (limiterStep limit n e).1) 0

/-! ## Scheduler pacing (`CasExporter.Start`, `part_000` lines 74–533)

Timed model of the loop: cancellation (raised at absolute time `tc`) is
observed only by the `select { case <-ctx.Done(): ... default: ... }` at the
top of an iteration; an iteration then performs the cycle work (`w` time
units) followed by `time.Sleep(e.extractionInterval)` — a plain blocking
sleep of the full interval `I`, with no cancellation check inside.  `t` is
the absolute time at the top of the current iteration; the result is the
absolute time at which the loop returns (`none` if the fuel ran out). -/
def schedExit (w I tc : Nat) : Nat → Nat → Option Nat
  | 0, _ => none
  | fuel + 1, t => if tc ≤ t then some t else schedExit w I tc fuel (t + w + I)

/-! ## Lemmas about the gauge writes and the per-entity loop -/


/-! ## Lemmas about the gauge writes and the per-entity loop -/

theorem setGauge_same (g : Labels → Option ℚ) (k : Labels) (v : ℚ) :
    setGauge g k v k = some v := by
  simp [setGauge]

theorem setGauge_other (g : Labels → Option ℚ) (k k' : Labels) (v : ℚ)
    (h : k' ≠ k) : setGauge g k v k' = g k' := by
  simp [setGauge, h]

theorem foldl_applyCount_pct (c : Cache) (l : List (String × String × ℚ))
    (s : CasExporterState) :
    (l.foldl (applyCount c) s).ocfStatPercentage = s.ocfStatPercentage := by
  induction l generalizing s with
  | nil => rfl
  | cons q rest ih => simpa [applyCount] using ih _

theorem foldl_applyPct_count (c : Cache) (l : List (String × String × ℚ))
    (s : CasExporterState) :
    (l.foldl (applyPct c) s).ocfStatCount = s.ocfStatCount := by
  induction l generalizing s with
  | nil => rfl
  | cons q rest ih => simpa [applyPct] using ih _

theorem foldl_applyCount_frame (c : Cache) (l : List (String × String × ℚ))
    (s : CasExporterState) (k : Labels)
    (h : k.device ≠ c.Device ∨ k.id ≠ toString c.ID) :
    (l.foldl (applyCount c) s).ocfStatCount k = s.ocfStatCount k := by
  induction l generalizing s with
  | nil => rfl
  | cons q rest ih =>
    rw [List.foldl_cons, ih]
    simp only [applyCount]
    refine setGauge_other _ _ _ _ ?_
    intro hk
    rcases h with h | h <;> simp [hk] at h

theorem foldl_applyPct_frame (c : Cache) (l : List (String × String × ℚ))
    (s : CasExporterState) (k : Labels)
    (h : k.device ≠ c.Device ∨ k.id ≠ toString c.ID) :
    (l.foldl (applyPct c) s).ocfStatPercentage k = s.ocfStatPercentage k := by
  induction l generalizing s with
  | nil => rfl
  | cons q rest ih =>
    rw [List.foldl_cons, ih]
    simp only [applyPct]
    refine setGauge_other _ _ _ _ ?_
    intro hk
    rcases h with h | h <;> simp [hk] at h

theorem foldl_applyCount_frame_keys (c : Cache) (l : List (String × String × ℚ))
    (s : CasExporterState) (k : Labels)
    (h : ∀ q ∈ l, (q.1, q.2.1) ≠ (k.category, k.subcategory)) :
    (l.foldl (applyCount c) s).ocfStatCount k = s.ocfStatCount k := by
  induction l generalizing s with
  | nil => rfl
  | cons q rest ih =>
    rw [List.foldl_cons, ih _ (fun q hq => h q (List.mem_cons_of_mem _ hq))]
    simp only [applyCount]
    refine setGauge_other _ _ _ _ ?_
    intro hk
    apply h q (List.mem_cons_self _ _)
    rw [hk]

theorem foldl_applyPct_frame_keys (c : Cache) (l : List (String × String × ℚ))
    (s : CasExporterState) (k : Labels)
    (h : ∀ q ∈ l, (q.1, q.2.1) ≠ (k.category, k.subcategory)) :
    (l.foldl (applyPct c) s).ocfStatPercentage k = s.ocfStatPercentage k := by
  induction l generalizing s with
  | nil => rfl
  | cons q rest ih =>
    rw [List.foldl_cons, ih _ (fun q hq => h q (List.mem_cons_of_mem _ hq))]
    simp only [applyPct]
    refine setGauge_other _ _ _ _ ?_
    intro hk
    apply h q (List.mem_cons_self _ _)
    rw [hk]

theorem foldl_applyCount_mem (c : Cache) (l : List (String × String × ℚ))
    (s : CasExporterState) (p : String × String × ℚ) (hp : p ∈ l)
    (hnd : (l.map fun q => (q.1, q.2.1)).Nodup) :
    (l.foldl (applyCount c) s).ocfStatCount
      ⟨c.Device, toString c.ID, p.1, p.2.1⟩ = some p.2.2 := by
  induction l generalizing s with
  | nil => cases hp
  | cons q rest ih =>
    rcases List.mem_cons.mp hp with rfl | hp'
    · rw [List.foldl_cons]
      rw [foldl_applyCount_frame_keys]
      · simp [applyCount, setGauge_same]
      · intro q' hq' hkeys
        have : (q'.1, q'.2.1) ∈ rest.map fun r => (r.1, r.2.1) :=
          List.mem_map_of_mem _ hq'
        rw [hkeys] at this
        exact (List.nodup_cons.mp hnd).1 this
    · exact ih _ hp' (List.nodup_cons.mp hnd).2

theorem foldl_applyPct_mem (c : Cache) (l : List (String × String × ℚ))
    (s : CasExporterState) (p : String × String × ℚ) (hp : p ∈ l)
    (hnd : (l.map fun q => (q.1, q.2.1)).Nodup) :
    (l.foldl (applyPct c) s).ocfStatPercentage
      ⟨c.Device, toString c.ID, p.1, p.2.1⟩ = some p.2.2 := by
  induction l generalizing s with
  | nil => cases hp
  | cons q rest ih =>
    rcases List.mem_cons.mp hp with rfl | hp'
    · rw [List.foldl_cons]
      rw [foldl_applyPct_frame_keys]
      · simp [applyPct, setGauge_same]
      · intro q' hq' hkeys
        have : (q'.1, q'.2.1) ∈ rest.map fun r => (r.1, r.2.1) :=
          List.mem_map_of_mem _ hq'
        rw [hkeys] at this
        exact (List.nodup_cons.mp hnd).1 this
    · exact ih _ hp' (List.nodup_cons.mp hnd).2

theorem countKeys_nodup (st : CacheStats) :
    ((countUpdates st).map fun q => (q.1, q.2.1)).Nodup := by
  simp only [countUpdates, List.map]
  decide

theorem pctKeys_nodup (st : CacheStats) :
    ((pctUpdates st).map fun q => (q.1, q.2.1)).Nodup := by
  simp only [pctUpdates, List.map]
  decide

theorem observe_count_mem (c : Cache) (st : CacheStats) (s : CasExporterState)
    (p : String × String × ℚ) (hp : p ∈ countUpdates st) :
    (observeCacheStats c st s).ocfStatCount
      ⟨c.Device, toString c.ID, p.1, p.2.1⟩ = some p.2.2 := by
  unfold observeCacheStats
  rw [foldl_applyPct_count]
  exact foldl_applyCount_mem _ _ _ _ hp (countKeys_nodup st)

theorem observe_pct_mem (c : Cache) (st : CacheStats) (s : CasExporterState)
    (p : String × String × ℚ) (hp : p ∈ pctUpdates st) :
    (observeCacheStats c st s).ocfStatPercentage
      ⟨c.Device, toString c.ID, p.1, p.2.1⟩ = some p.2.2 := by
  unfold observeCacheStats
  exact foldl_applyPct_mem _ _ _ _ hp (pctKeys_nodup st)

theorem observe_frame (c : Cache) (st : CacheStats) (s : CasExporterState)
    (k : Labels) (h : k.device ≠ c.Device ∨ k.id ≠ toString c.ID) :
    (observeCacheStats c st s).ocfStatCount k = s.ocfStatCount k ∧
      (observeCacheStats c st s).ocfStatPercentage k = s.ocfStatPercentage k := by
  unfold observeCacheStats
  constructor
  · rw [foldl_applyPct_count, foldl_applyCount_frame _ _ _ _ h]
  · rw [foldl_applyPct_frame _ _ _ _ h, foldl_applyCount_pct]

theorem foldl_applyCount_scalars (c : Cache) (l : List (String × String × ℚ))
    (s : CasExporterState) :
    (l.foldl (applyCount c) s).ocfStatDuration = s.ocfStatDuration ∧
      (l.foldl (applyCount c) s).ocfStatSuccess = s.ocfStatSuccess := by
  induction l generalizing s with
  | nil => exact ⟨rfl, rfl⟩
  | cons q rest ih => simpa [applyCount] using ih _

theorem foldl_applyPct_scalars (c : Cache) (l : List (String × String × ℚ))
    (s : CasExporterState) :
    (l.foldl (applyPct c) s).ocfStatDuration = s.ocfStatDuration ∧
      (l.foldl (applyPct c) s).ocfStatSuccess = s.ocfStatSuccess := by
  induction l generalizing s with
  | nil => exact ⟨rfl, rfl⟩
  | cons q rest ih => simpa [applyPct] using ih _

theorem observe_scalars (c : Cache) (st : CacheStats) (s : CasExporterState) :
    (observeCacheStats c st s).ocfStatDuration = s.ocfStatDuration ∧
      (observeCacheStats c st s).ocfStatSuccess = s.ocfStatSuccess := by
  unfold observeCacheStats
  rw [(foldl_applyPct_scalars _ _ _).1, (foldl_applyPct_scalars _ _ _).2,
    (foldl_applyCount_scalars _ _ _).1, (foldl_applyCount_scalars _ _ _).2]
  exact ⟨rfl, rfl⟩

theorem runEntities_trace (sample : Nat → Except String CacheStats)
    (cs : List Cache) (ok : Bool) (s : CasExporterState) :
    (runEntities sample cs ok s).2.2 =
      (cs.filter fun c => c.Device != "-").map (·.ID) := by
  induction cs generalizing ok s with
  | nil => rfl
  | cons c rest ih =>
    by_cases hc : c.Device = "-"
    · simp [runEntities, hc, List.filter, ih]
    · have hb : (c.Device != "-") = true := by simp [bne_iff_ne, hc]
      rcases h : sample c.ID with e | st <;>
        simp [runEntities, hc, h, List.filter_cons, hb, ih]

theorem runEntities_success (sample : Nat → Except String CacheStats)
    (cs : List Cache) (ok : Bool) (s : CasExporterState) :
    (runEntities sample cs ok s).1 =
      (ok && cs.all fun c => (c.Device == "-") || (sample c.ID).toBool) := by
  induction cs generalizing ok s with
  | nil => simp [runEntities]
  | cons c rest ih =>
    by_cases hc : c.Device = "-"
    · simp [runEntities, hc, ih]
    · have hb : (c.Device == "-") = false := by simp [hc]
      rcases h : sample c.ID with e | st <;>
        simp [runEntities, hc, h, hb, ih, Except.toBool, Except.isOk]

theorem runEntities_frame (sample : Nat → Except String CacheStats)
    (cs : List Cache) (ok : Bool) (s : CasExporterState) (k : Labels)
    (h : ∀ c ∈ cs, c.Device ≠ k.device ∨ toString c.ID ≠ k.id) :
    (runEntities sample cs ok s).2.1.ocfStatCount k = s.ocfStatCount k ∧
      (runEntities sample cs ok s).2.1.ocfStatPercentage k = s.ocfStatPercentage k := by
  induction cs generalizing ok s with
  | nil => exact ⟨rfl, rfl⟩
  | cons c rest ih =>
    have hrest : ∀ c' ∈ rest, c'.Device ≠ k.device ∨ toString c'.ID ≠ k.id :=
      fun c' hc' => h c' (List.mem_cons_of_mem _ hc')
    have hc0 : c.Device ≠ k.device ∨ toString c.ID ≠ k.id :=
      h c (List.mem_cons_self _ _)
    by_cases hc : c.Device = "-"
    · simpa [runEntities, hc] using ih _ _ hrest
    · rcases hs : sample c.ID with e | st
      · simpa [runEntities, hc, hs] using ih _ _ hrest
      · have hobs := observe_frame c st s k (by tauto)
        have := ih false (observeCacheStats c st s) hrest
        simp only [runEntities, hs, if_neg hc]
        constructor
        · rw [(ih ok _ hrest).1, hobs.1]
        · rw [(ih ok _ hrest).2, hobs.2]

theorem runEntities_sentinel_frame (sample : Nat → Except String CacheStats)
    (cs : List Cache) (ok : Bool) (s : CasExporterState) (k : Labels)
    (hk : k.device = "-") :
    (runEntities sample cs ok s).2.1.ocfStatCount k = s.ocfStatCount k ∧
      (runEntities sample cs ok s).2.1.ocfStatPercentage k = s.ocfStatPercentage k := by
  induction cs generalizing ok s with
  | nil => exact ⟨rfl, rfl⟩
  | cons c rest ih =>
    by_cases hc : c.Device = "-"
    · simpa [runEntities, hc] using ih _ _
    · rcases hs : sample c.ID with e | st
      · simpa [runEntities, hc, hs] using ih _ _
      · have hobs := observe_frame c st s k (Or.inl (by rw [hk]; exact fun h => hc h.symm))
        simp only [runEntities, hs, if_neg hc]
        constructor
        · rw [(ih ok _).1, hobs.1]
        · rw [(ih ok _).2, hobs.2]

theorem runEntities_scalars (sample : Nat → Except String CacheStats)
    (cs : List Cache) (ok : Bool) (s : CasExporterState) :
    (runEntities sample cs ok s).2.1.ocfStatDuration = s.ocfStatDuration ∧
      (runEntities sample cs ok s).2.1.ocfStatSuccess = s.ocfStatSuccess := by
  induction cs generalizing ok s with
  | nil => exact ⟨rfl, rfl⟩
  | cons c rest ih =>
    by_cases hc : c.Device = "-"
    · simpa [runEntities, hc] using ih _ _
    · rcases hs : sample c.ID with e | st
      · simpa [runEntities, hc, hs] using ih _ _
      · have hobs := observe_scalars c st s
        simp only [runEntities, hs, if_neg hc]
        constructor
        · rw [(ih ok _).1, hobs.1]
        · rw [(ih ok _).2, hobs.2]

theorem runEntities_value (sample : Nat → Except String CacheStats)
    (cs : List Cache) (ok : Bool) (s : CasExporterState) (A : Cache)
    (hnd : (cs.map fun c => (c.Device, toString c.ID)).Nodup)
    (hA : A ∈ cs) (hdev : A.Device ≠ "-") (st : CacheStats)
    (hst : sample A.ID = .ok st) :
    (∀ p ∈ countUpdates st,
        (runEntities sample cs ok s).2.1.ocfStatCount
          ⟨A.Device, toString A.ID, p.1, p.2.1⟩ = some p.2.2) ∧
      (∀ p ∈ pctUpdates st,
        (runEntities sample cs ok s).2.1.ocfStatPercentage
          ⟨A.Device, toString A.ID, p.1, p.2.1⟩ = some p.2.2) := by
  induction cs generalizing ok s with
  | nil => cases hA
  | cons c rest ih =>
    rcases List.mem_cons.mp hA with rfl | hA'
    · have hrest : ∀ c' ∈ rest, c'.Device ≠ A.Device ∨ toString c'.ID ≠ toString A.ID := by
        intro c' hc'
        by_contra hcon
        push_neg at hcon
        have : (A.Device, toString A.ID) ∈ rest.map fun c => (c.Device, toString c.ID) := by
          rw [← hcon.1, ← hcon.2]
          exact List.mem_map_of_mem _ hc'
        exact (List.nodup_cons.mp hnd).1 this
      simp only [runEntities, if_neg hdev, hst]
      constructor
      · intro p hp
        have hfr := runEntities_frame sample rest ok (observeCacheStats A st s)
          ⟨A.Device, toString A.ID, p.1, p.2.1⟩ (by simpa using hrest)
        rw [hfr.1]
        exact observe_count_mem A st s p hp
      · intro p hp
        have hfr := runEntities_frame sample rest ok (observeCacheStats A st s)
          ⟨A.Device, toString A.ID, p.1, p.2.1⟩ (by simpa using hrest)
        rw [hfr.2]
        exact observe_pct_mem A st s p hp
    · have hnd' := (List.nodup_cons.mp hnd).2
      by_cases hc : c.Device = "-"
      · simpa [runEntities, hc] using ih _ _ hnd' hA'
      · rcases hs : sample c.ID with e | st' <;>
          simpa [runEntities, hc, hs] using ih _ _ hnd' hA'

theorem finishCycle_gauges (s : CasExporterState) (d : ℚ) (ok : Bool) :
    (finishCycle s d ok).ocfStatCount = s.ocfStatCount ∧
      (finishCycle s d ok).ocfStatPercentage = s.ocfStatPercentage := ⟨rfl, rfl⟩

/-! ## Claims -/

/-- Concrete Reading for C1: the Pass-Through request counters and
percentages differ from the Read/Write total percentages, so the two are
distinguishable in the cycle's output. -/
def statsC1 : CacheStats :=
  { PassThroughReadsRequests := 7, PassThroughReadsPercent := 5,
    PassThroughWritesRequests := 9, PassThroughWritesPercent := 8,
    ReadTotalPercent := 4, WriteTotalPercent := 6 }

/-- Concrete Entity for C1. -/
def cacheC1 : Cache := { ID := 1, Device := "/dev/sda" }

/-- C1: the round-trip claim fails on the code for the `rd_pt` / `wr_pt`
keys.  Running one extraction cycle over a decoded sample stores
`ReadTotalPercent` / `WriteTotalPercent` under the `requests/rd_pt` and
`requests/wr_pt` count metrics — not the input's Pass-Through reads/writes
request counts — and stores the same total percentages under the
percentage metrics instead of `PassThroughReadsPercent` /
`PassThroughWritesPercent` (`part_000` lines 189–200 and 393–404). -/
theorem C1_rd_pt_wr_pt_set_from_total_percent :
    (runCycle (.ok [cacheC1]) (fun _ => .ok statsC1) 1 CasExporterState.init).1.ocfStatCount
        ⟨"/dev/sda", "1", "requests", "rd_pt"⟩ = some statsC1.ReadTotalPercent ∧
    (runCycle (.ok [cacheC1]) (fun _ => .ok statsC1) 1 CasExporterState.init).1.ocfStatCount
        ⟨"/dev/sda", "1", "requests", "rd_pt"⟩ ≠ some (statsC1.PassThroughReadsRequests : ℚ) ∧
    (runCycle (.ok [cacheC1]) (fun _ => .ok statsC1) 1 CasExporterState.init).1.ocfStatCount
        ⟨"/dev/sda", "1", "requests", "wr_pt"⟩ = some statsC1.WriteTotalPercent ∧
    (runCycle (.ok [cacheC1]) (fun _ => .ok statsC1) 1 CasExporterState.init).1.ocfStatCount
        ⟨"/dev/sda", "1", "requests", "wr_pt"⟩ ≠ some (statsC1.PassThroughWritesRequests : ℚ) ∧
    (runCycle (.ok [cacheC1]) (fun _ => .ok statsC1) 1 CasExporterState.init).1.ocfStatPercentage
        ⟨"/dev/sda", "1", "requests", "rd_pt"⟩ = some statsC1.ReadTotalPercent ∧
    (runCycle (.ok [cacheC1]) (fun _ => .ok statsC1) 1 CasExporterState.init).1.ocfStatPercentage
        ⟨"/dev/sda", "1", "requests", "rd_pt"⟩ ≠ some statsC1.PassThroughReadsPercent ∧
    (runCycle (.ok [cacheC1]) (fun _ => .ok statsC1) 1 CasExporterState.init).1.ocfStatPercentage
        ⟨"/dev/sda", "1", "requests", "wr_pt"⟩ = some statsC1.WriteTotalPercent ∧
    (runCycle (.ok [cacheC1]) (fun _ => .ok statsC1) 1 CasExporterState.init).1.ocfStatPercentage
        ⟨"/dev/sda", "1", "requests", "wr_pt"⟩ ≠ some statsC1.PassThroughWritesPercent := by
  decide

/-- C2: teardown does not exit with status 0.  During a
cancellation-triggered graceful teardown, `srv.Shutdown` makes
`ListenAndServe` return the non-nil `http.ErrServerClosed`; the listener
goroutine of `ExporterServer.Serve` applies `os.Exit(1)` to every non-nil
error without distinguishing `ErrServerClosed`, so the graceful-teardown
path reaches `os.Exit(1)` — only a nil error (which `ListenAndServe` never
returns once it has started) would keep the process running. -/
theorem C2_graceful_shutdown_reaches_exit_one :
    serveListenGoroutine gracefulShutdownListenResult = ExitAction.exitCode 1 ∧
    serveListenGoroutine gracefulShutdownListenResult ≠ ExitAction.keepRunning ∧
    serveListenGoroutine none = ExitAction.keepRunning := by
  decide

/-- Header line for C3: it lacks the required column
`"Occupancy [4KiB blocks]"` (and most others). -/
def headerlineC3 : String := "Cache Id,Free [%]"

/-- A Go map-iteration order for C3: the `initializeHeaders` source order,
whose first keyword is `"Occupancy [4KiB blocks]"`. -/
def keywordOrderC3 : List String := headersInit.map (fun p => p.2)

/-- C3 counterexample: a required column is absent (`headerlineC3` has no
occupancy column), `mapHeaders` returns 1 (`none`), yet the legacy `main`
does not refuse to run: it proceeds to serve the metrics endpoint
(`cas_exporter.go` lines 663–672 only log on `rc != 0`). -/
theorem C3_missing_column_still_serves :
    mapHeadersGo keywordOrderC3 headerlineC3 = none ∧
    mainAfterMapHeaders (mapHeadersGo keywordOrderC3 headerlineC3) =
      StartupOutcome.serveMetrics ∧
    mainAfterMapHeaders (mapHeadersGo keywordOrderC3 headerlineC3) ≠
      StartupOutcome.refuseToRun 1 := by
  refine ⟨by decide, rfl, by decide⟩

/-- The `mapHeaders` key loop never returns 1 once its `found` flag is set:
the flag is assigned `true` at the first matched keyword and never reset. -/
theorem mapHeadersLoop_found_not_none (csv : List String) (order : List String)
    (hm : List (String × Nat)) :
    mapHeadersLoop csv order true hm ≠ none := by
  induction order generalizing hm with
  | nil => simp [mapHeadersLoop]
  | cons kw rest ih =>
    simp only [mapHeadersLoop]
    rcases h : csv.findIdx? (fun h => goContains h kw) with _ | i
    · simpa using ih hm
    · simpa using ih (hm ++ [(kw, i)])

/-- C3 amended: a missing required column is not fatal.  The legacy `main`
proceeds to serve the metrics endpoint whatever `mapHeaders` returned, and
`mapHeaders` itself reports failure only when the *first* keyword in Go's
unspecified map-iteration order is absent — a missing column after any
matched keyword is skipped silently (the `found` flag is never reset). -/
theorem C3_amended_header_check_never_refuses :
    (∀ m : Option (List (String × Nat)),
        mainAfterMapHeaders m = StartupOutcome.serveMetrics) ∧
    (∀ (headerline : String) (kw : String) (rest : List String),
        mapHeadersGo (kw :: rest) headerline = none ↔
          (goSplitComma headerline).findIdx? (fun h => goContains h kw) = none) := by
  refine ⟨fun _ => rfl, fun headerline kw rest => ?_⟩
  unfold mapHeadersGo
  simp only [mapHeadersLoop]
  rcases h : (goSplitComma headerline).findIdx? (fun h => goContains h kw) with _ | i
  · simp [mapHeadersLoop_found_not_none]
  · simp [mapHeadersLoop_found_not_none]

/-- C4 counterexample: in the zero-row sample error case the error message
is the fixed string `"missing cache stats"` (`casadm.go` line 134), which
does not include the raw captured output. -/
theorem C4_zero_rows_message_lacks_output :
    GetCacheStatsGo ⟨none, "#RAW-CASADM-OUTPUT#"⟩ (fun _ => .ok []) =
      .error "missing cache stats" ∧
    ¬ ("#RAW-CASADM-OUTPUT#".data <:+: "missing cache stats".data) := by
  exact ⟨rfl, by decide⟩

/-- C4 amended: `ListCaches` / `GetCacheStats` return an error (they are
total functions into `Except`, never a panic) exactly when the external
process failed, the output could not be decoded, or — for the sample call
only — the decoded row list is empty; the raw captured output is included
in the error message in the process-failure case (only). -/
theorem C4_amended_adapter_error_cases (r : ExecResult)
    (decodeC : String → Except String (List Cache))
    (decodeS : String → Except String (List CacheStats)) :
    ((∃ m, ListCachesGo r decodeC = .error m) ↔
        (r.exitErr ≠ none ∨ ∃ m, decodeC r.output = .error m)) ∧
    ((∃ m, GetCacheStatsGo r decodeS = .error m) ↔
        (r.exitErr ≠ none ∨ (∃ m, decodeS r.output = .error m) ∨
          decodeS r.output = .ok [])) ∧
    (∀ e, r.exitErr = some e →
        ListCachesGo r decodeC =
            .error ("list caches: " ++ e ++ ": '" ++ r.output ++ "'") ∧
          GetCacheStatsGo r decodeS =
            .error ("list caches: " ++ e ++ ": '" ++ r.output ++ "'") ∧
          r.output.data <:+:
            ("list caches: " ++ e ++ ": '" ++ r.output ++ "'").data) := by
  refine ⟨?_, ?_, ?_⟩
  · rcases hr : r.exitErr with _ | e
    · simp only [ListCachesGo, hr]
      rcases hd : decodeC r.output with m | caches <;> simp [hd]
    · simp [ListCachesGo, hr]
  · rcases hr : r.exitErr with _ | e
    · simp only [GetCacheStatsGo, hr]
      rcases hd : decodeS r.output with m | caches
      · simp [hd]
      · rcases caches with _ | ⟨c, cs⟩ <;> simp [hd]
    · simp [GetCacheStatsGo, hr]
  · intro e he
    refine ⟨by simp [ListCachesGo, he], by simp [GetCacheStatsGo, he], ?_⟩
    exact ⟨("list caches: " ++ e ++ ": '").data, "'".data,
      by simp [String.data_append]⟩

/-- Witness for C4 amended at a concrete failed invocation. -/
theorem C4_amended_adapter_error_cases_witness :
    ListCachesGo ⟨some "exit status 1", "RAW"⟩ (fun _ => .ok []) =
        .error "list caches: exit status 1: 'RAW'" ∧
      "RAW".data <:+: "list caches: exit status 1: 'RAW'".data := by
  have h := (C4_amended_adapter_error_cases ⟨some "exit status 1", "RAW"⟩
    (fun _ => .ok []) (fun _ => .ok [])).2.2 "exit status 1" rfl
  exact ⟨h.1, h.2.2⟩

/-- C5: in every cycle whose enumerate call succeeded, the sample operation
is invoked exactly on the entities whose device is not the inactive
sentinel `"-"`, in enumerate order, and no gauge keyed to the sentinel
device is created or modified (`part_000` lines 94–97). -/
theorem C5_sentinel_never_sampled (caches : List Cache)
    (sample : Nat → Except String CacheStats) (duration : ℚ)
    (s : CasExporterState) :
    (runCycle (.ok caches) sample duration s).2 =
        (caches.filter fun c => c.Device != "-").map (·.ID) ∧
      ∀ k : Labels, k.device = "-" →
        (runCycle (.ok caches) sample duration s).1.ocfStatCount k =
            s.ocfStatCount k ∧
          (runCycle (.ok caches) sample duration s).1.ocfStatPercentage k =
            s.ocfStatPercentage k := by
  constructor
  · simpa [runCycle] using runEntities_trace sample caches true s
  · intro k hk
    have h := runEntities_sentinel_frame sample caches true s k hk
    simpa [runCycle, finishCycle] using h

/-- Witness for C5: the spec's end-to-end scenario — entities
`{id=1, device="/dev/sda"}` and `{id=2, device="-"}`; only entity 1 is
sampled and the sentinel entity produces no Metric Points. -/
theorem C5_sentinel_never_sampled_witness :
    (runCycle (.ok [{ ID := 1, Device := "/dev/sda" }, { ID := 2, Device := "-" }])
        (fun _ => .ok { Occupancy4K := 100, OccupancyPercent := 85/2 }) 1
        CasExporterState.init).2 = [1] ∧
      (runCycle (.ok [{ ID := 1, Device := "/dev/sda" }, { ID := 2, Device := "-" }])
        (fun _ => .ok { Occupancy4K := 100, OccupancyPercent := 85/2 }) 1
        CasExporterState.init).1.ocfStatCount ⟨"-", "2", "usage", "occupancy"⟩ =
          none := by
  have h := C5_sentinel_never_sampled
    [{ ID := 1, Device := "/dev/sda" }, { ID := 2, Device := "-" }]
    (fun _ => .ok { Occupancy4K := 100, OccupancyPercent := 85/2 }) 1
    CasExporterState.init
  refine ⟨by rw [h.1]; decide, ?_⟩
  rw [(h.2 ⟨"-", "2", "usage", "occupancy"⟩ rfl).1]
  rfl

/-- C6: failure isolation.  In a cycle whose enumerate call succeeded and
whose listed entities carry pairwise distinct (device, id) label pairs, if
entity `A`'s sample call succeeds while some non-sentinel entity `B`'s
sample call fails, then after the cycle: every non-sentinel entity was
still sampled (the loop continued past `B`), all of `A`'s count and
percentage Metric Points hold exactly the values taken from `A`'s decoded
sample, and the recorded cycle success flag is `0` (`part_000` lines
99–108 and 521–524). -/
theorem C6_failure_isolation (caches : List Cache)
    (sample : Nat → Except String CacheStats) (duration : ℚ)
    (s : CasExporterState)
    (hnd : (caches.map fun c => (c.Device, toString c.ID)).Nodup)
    (A : Cache) (hA : A ∈ caches) (hAdev : A.Device ≠ "-")
    (st : CacheStats) (hst : sample A.ID = .ok st)
    (B : Cache) (hB : B ∈ caches) (hBdev : B.Device ≠ "-")
    (e : String) (hBf : sample B.ID = .error e) :
    (runCycle (.ok caches) sample duration s).1.ocfStatSuccess = some 0 ∧
    (runCycle (.ok caches) sample duration s).2 =
      (caches.filter fun c => c.Device != "-").map (·.ID) ∧
    (∀ p ∈ countUpdates st,
        (runCycle (.ok caches) sample duration s).1.ocfStatCount
          ⟨A.Device, toString A.ID, p.1, p.2.1⟩ = some p.2.2) ∧
    (∀ p ∈ pctUpdates st,
        (runCycle (.ok caches) sample duration s).1.ocfStatPercentage
          ⟨A.Device, toString A.ID, p.1, p.2.1⟩ = some p.2.2) := by
  have hval := runEntities_value sample caches true s A hnd hA hAdev st hst
  have hsucc := runEntities_success sample caches true s
  have hallf : (caches.all fun c => (c.Device == "-") || (sample c.ID).toBool) = false := by
    by_contra hcon
    rw [Bool.not_eq_false] at hcon
    have := List.all_eq_true.mp hcon B hB
    simp [hBdev, hBf, Except.toBool, Except.isOk] at this
  refine ⟨?_, ?_, ?_, ?_⟩
  · simp [runCycle, finishCycle, hsucc, hallf]
  · simpa [runCycle] using runEntities_trace sample caches true s
  · intro p hp
    simpa [runCycle, finishCycle] using hval.1 p hp
  · intro p hp
    simpa [runCycle, finishCycle] using hval.2 p hp

/-- Witness for C6: entity 1 samples successfully, entity 2 fails; entity
1's occupancy point carries its sampled value and the cycle is marked
failed. -/
theorem C6_failure_isolation_witness :
    (runCycle
        (.ok [{ ID := 1, Device := "/dev/sda" }, { ID := 2, Device := "/dev/sdb" }])
        (fun n => if n = 1 then .ok { Occupancy4K := 100, OccupancyPercent := 85/2 }
          else .error "sample failed") 1 CasExporterState.init).1.ocfStatSuccess =
        some 0 ∧
      (runCycle
        (.ok [{ ID := 1, Device := "/dev/sda" }, { ID := 2, Device := "/dev/sdb" }])
        (fun n => if n = 1 then .ok { Occupancy4K := 100, OccupancyPercent := 85/2 }
          else .error "sample failed") 1 CasExporterState.init).1.ocfStatCount
          ⟨"/dev/sda", "1", "usage", "occupancy"⟩ = some 100 := by
  have h := C6_failure_isolation
    [{ ID := 1, Device := "/dev/sda" }, { ID := 2, Device := "/dev/sdb" }]
    (fun n => if n = 1 then .ok { Occupancy4K := 100, OccupancyPercent := 85/2 }
      else .error "sample failed") 1 CasExporterState.init
    (by decide)
    { ID := 1, Device := "/dev/sda" } (by decide) (by decide)
    { Occupancy4K := 100, OccupancyPercent := 85/2 } rfl
    { ID := 2, Device := "/dev/sdb" } (by decide) (by decide)
    "sample failed" rfl
  exact ⟨h.1, h.2.2.1 ("usage", "occupancy", (100 : ℚ)) (by decide)⟩

/-- C7: a cycle whose enumerate call failed makes no sample call, records
success `0` and the measured duration, and leaves every previously observed
count and percentage Metric Point exactly as it was (`part_000` lines
86–92 and 521–524). -/
theorem C7_enumerate_failure_frame (msg : String)
    (sample : Nat → Except String CacheStats) (duration : ℚ)
    (s : CasExporterState) :
    (runCycle (.error msg) sample duration s).2 = [] ∧
    (runCycle (.error msg) sample duration s).1.ocfStatSuccess = some 0 ∧
    (runCycle (.error msg) sample duration s).1.ocfStatDuration = some duration ∧
    (∀ k, (runCycle (.error msg) sample duration s).1.ocfStatCount k =
      s.ocfStatCount k) ∧
    (∀ k, (runCycle (.error msg) sample duration s).1.ocfStatPercentage k =
      s.ocfStatPercentage k) := by
  exact ⟨rfl, rfl, rfl, fun _ => rfl, fun _ => rfl⟩

/-- C8 counterexample: the wait is a plain blocking sleep, so cancellation
latency is *not* bounded by the wait's interruptibility — it reaches the
full configured interval.  With work time `1`, interval `30` and
cancellation raised at time `1` (the instant the sleep starts), the loop
only exits at time `31`: latency `31 - 1 = 30`, the full interval. -/
theorem C8_cancellation_waits_full_interval :
    schedExit 1 30 1 5 0 = some 31 ∧ 31 - 1 = 30 := by
  exact ⟨rfl, rfl⟩

/-- Invariant of the timed loop model: an exit happens either immediately
(cancellation already raised at the start boundary) or at the first
iteration boundary at or after the cancellation time, which is less than
one work phase plus one full interval after it. -/
theorem schedExit_spec (w I tc : Nat) (fuel t texit : Nat)
    (h : schedExit w I tc fuel t = some texit) :
    (texit = t ∧ tc ≤ t) ∨ (tc ≤ texit ∧ texit < tc + w + I) := by
  induction fuel generalizing t with
  | zero => simp [schedExit] at h
  | succ fuel ih =>
    rw [schedExit] at h
    by_cases htc : tc ≤ t
    · rw [if_pos htc] at h
      exact Or.inl ⟨(Option.some_injective _ h).symm, htc⟩
    · rw [if_neg htc] at h
      push_neg at htc
      rcases ih _ h with ⟨rfl, hle⟩ | hr
      · exact Or.inr ⟨hle, by omega⟩
      · exact Or.inr hr
/-- C8 amended: the loop observes cancellation only at the
top-of-iteration `select`; the wait is the plain blocking
`time.Sleep(e.extractionInterval)` (`part_000` line 531), so for a
positive interval the loop exits at the first iteration boundary at or
after the cancellation time — cancellation latency is bounded by one
cycle's work plus one *full* interval, not by the wait's own
interruptibility. -/
theorem C8_amended_latency_bound (w I tc fuel texit : Nat) (hI : 0 < I)
    (h : schedExit w I tc fuel 0 = some texit) :
    tc ≤ texit ∧ texit < tc + w + I := by
  rcases schedExit_spec w I tc fuel 0 texit h with ⟨rfl, hle⟩ | hr
  · exact ⟨hle, by omega⟩
  · exact hr

/-- Witness for C8 amended at the counterexample's run. -/
theorem C8_amended_latency_bound_witness :
    0 < 30 ∧ schedExit 1 30 1 5 0 = some 31 ∧ (1 ≤ 31 ∧ 31 < 1 + 1 + 30) := by
  exact ⟨by decide, rfl, C8_amended_latency_bound 1 30 1 5 31 (by decide) rfl⟩

/-- C9: the number of in-flight render operations never exceeds the
configured ceiling `maxRequestsInFlight = 40`, and a request arriving at
the ceiling is rejected (not admitted, in-flight count unchanged). -/
theorem C9_inflight_bounded_and_rejected (events : List RenderEvent) :
    limiterRun maxRequestsInFlight events ≤ maxRequestsInFlight ∧
    ∀ n, maxRequestsInFlight ≤ n →
      (limiterStep maxRequestsInFlight n .arrive).2 = false ∧
        (limiterStep maxRequestsInFlight n .arrive).1 = n := by
  constructor
  · have aux : ∀ (es : List RenderEvent) (n : Nat), n ≤ maxRequestsInFlight →
        es.foldl (fun n e => (limiterStep maxRequestsInFlight n e).1) n ≤
          maxRequestsInFlight := by
      intro es
      induction es with
      | nil => intro n hn; simpa using hn
      | cons e rest ih =>
        intro n hn
        refine ih _ ?_
        rcases e with _ | _
        · by_cases hlt : n < maxRequestsInFlight
          · simp only [limiterStep, if_pos hlt]
            omega
          · simpa [limiterStep, hlt] using hn
        · simp only [limiterStep]
          omega
    exact aux events 0 (by simp [maxRequestsInFlight])
  · intro n hn
    have hlt : ¬ n < maxRequestsInFlight := by omega
    simp [limiterStep, hlt]

/-- Witness for C9: a burst of 41 arrivals stays at the ceiling, and the
41st arrival at a full server is rejected. -/
theorem C9_inflight_bounded_and_rejected_witness :
    limiterRun maxRequestsInFlight (List.replicate 41 RenderEvent.arrive) ≤
        maxRequestsInFlight ∧
      (limiterStep maxRequestsInFlight 40 .arrive).2 = false := by
  have h := C9_inflight_bounded_and_rejected (List.replicate 41 RenderEvent.arrive)
  exact ⟨h.1, (h.2 40 (by decide)).1⟩

/-- C10: whenever the external process succeeded and the output decoded to
a non-empty record list, `GetCacheStats` returns exactly the first decoded
record (silently discarding the rest); a decode to the empty list yields
the `"missing cache stats"` error (`casadm.go` lines 127–137). -/
theorem C10_first_record_returned (r : ExecResult)
    (decode : String → Except String (List CacheStats))
    (hr : r.exitErr = none) :
    (∀ (x : CacheStats) (xs : List CacheStats),
        decode r.output = .ok (x :: xs) → GetCacheStatsGo r decode = .ok x) ∧
      (decode r.output = .ok [] →
        GetCacheStatsGo r decode = .error "missing cache stats") := by
  constructor
  · intro x xs hd
    simp [GetCacheStatsGo, hr, hd]
  · intro hd
    simp [GetCacheStatsGo, hr, hd]

/-- Witness for C10: a two-record decode returns the first record only. -/
theorem C10_first_record_returned_witness :
    GetCacheStatsGo ⟨none, "out"⟩
        (fun _ => .ok [{ ID := 1 }, { ID := 2 }]) = .ok { ID := 1 } := by
  exact (C10_first_record_returned ⟨none, "out"⟩
    (fun _ => .ok [{ ID := 1 }, { ID := 2 }]) rfl).1 { ID := 1 } [{ ID := 2 }] rfl

/-- Witness for C3 amended at a concrete mapping result and header line. -/
theorem C3_amended_header_check_never_refuses_witness :
    mainAfterMapHeaders (mapHeadersGo keywordOrderC3 headerlineC3) =
        StartupOutcome.serveMetrics ∧
      (mapHeadersGo ["Occupancy [4KiB blocks]"] "Cache Id,Free [%]" = none ↔
        (goSplitComma "Cache Id,Free [%]").findIdx?
          (fun h => goContains h "Occupancy [4KiB blocks]") = none) := by
  exact ⟨C3_amended_header_check_never_refuses.1 _,
    C3_amended_header_check_never_refuses.2 "Cache Id,Free [%]"
      "Occupancy [4KiB blocks]" []⟩
